import Mathlib

/-!
Verification of the transport interception layer of vcrpy
(`src/vcr/stubs/__init__.py`) against its natural-language specification.

Modelling conventions:
* Python byte strings and text strings are both modelled as Lean `String`.
* Python dictionaries are modelled as insertion-ordered association lists
  `List (String × α)`; assignment keeps the position of an existing key and
  appends new keys, exactly like CPython dicts.
* Python `str.lower` / `str.upper` are modelled as ASCII case maps (all
  header names handled by the code are ASCII).
* External collaborators that are not part of the source file (the cassette,
  the `Request` class from `vcr.request`, the exception class from
  `vcr.errors`) are modelled from the specification; each such definition
  carries a doc comment saying so.
* In-place mutation (the constructor of `VCRHTTPResponse` deletes a key from
  the recorded response's header dict) is made explicit by returning the
  record as it stands after the operation.
-/

namespace VCRStubs

/-- The ASCII uppercase → lowercase letter table. -/
def lowerTable : List (Char × Char) :=
  [('A', 'a'), ('B', 'b'), ('C', 'c'), ('D', 'd'), ('E', 'e'), ('F', 'f'),
   ('G', 'g'), ('H', 'h'), ('I', 'i'), ('J', 'j'), ('K', 'k'), ('L', 'l'),
   ('M', 'm'), ('N', 'n'), ('O', 'o'), ('P', 'p'), ('Q', 'q'), ('R', 'r'),
   ('S', 's'), ('T', 't'), ('U', 'u'), ('V', 'v'), ('W', 'w'), ('X', 'x'),
   ('Y', 'y'), ('Z', 'z')]

/-- ASCII lower-casing of one character, the fragment of Python `str.lower`
exercised by header names. -/
def lowerChar (c : Char) : Char :=
  match lowerTable.find? (fun p => p.1 == c) with
  | some p => p.2
  | none => c

/-- ASCII upper-casing of one character, the fragment of Python `str.upper`
exercised by header names. -/
def upperChar (c : Char) : Char :=
  if c = 'a' then 'A' else if c = 'b' then 'B' else if c = 'c' then 'C'
  else if c = 'd' then 'D' else if c = 'e' then 'E' else if c = 'f' then 'F'
  else if c = 'g' then 'G' else if c = 'h' then 'H' else if c = 'i' then 'I'
  else if c = 'j' then 'J' else if c = 'k' then 'K' else if c = 'l' then 'L'
  else if c = 'm' then 'M' else if c = 'n' then 'N' else if c = 'o' then 'O'
  else if c = 'p' then 'P' else if c = 'q' then 'Q' else if c = 'r' then 'R'
  else if c = 's' then 'S' else if c = 't' then 'T' else if c = 'u' then 'U'
  else if c = 'v' then 'V' else if c = 'w' then 'W' else if c = 'x' then 'X'
  else if c = 'y' then 'Y' else if c = 'z' then 'Z' else c

/-- Model of Python `str.lower` on header names. -/
def lower (s : String) : String := ⟨s.data.map lowerChar⟩

/-- Model of Python `str.upper` on header names. -/
def upper (s : String) : String := ⟨s.data.map upperChar⟩

/-- Model of Python `str.split(sep)` for a one-character separator. -/
def splitOnChar (sep : Char) : List Char → List (List Char)
  | [] => [[]]
  | c :: cs =>
    if c = sep then [] :: splitOnChar sep cs
    else
      match splitOnChar sep cs with
      | [] => [[c]]
      | h :: t => (c :: h) :: t

/-- Model of Python `key.split('-')[1]` (total: returns `""` when there is no
second component; in the source the call is guarded so that a hyphen is
always present). -/
def suffix1 (s : String) : String := ⟨((splitOnChar '-' s.data)[1]?).getD []⟩

/-- Headers as serialized in cassettes: an insertion-ordered mapping from
header name to the ordered list of values (a Python dict of lists). -/
abbrev HeaderDict := List (String × List String)

/-- Python dict assignment `d[k] = v`: overwrites in place if the key is
present, otherwise appends the new entry at the end. -/
def dictSet (d : List (String × List String)) (k : String) (v : List String) :
    List (String × List String) :=
  if d.any (fun e => e.1 == k) then
    d.map (fun e => if e.1 == k then (e.1, v) else e)
  else d ++ [(k, v)]

/-- The loop body of `transform_proxy_headers`. -/
def transformStep (acc : HeaderDict) (kv : String × List String) : HeaderDict :=
  if lower kv.1 = "proxy-connection" then dictSet acc (suffix1 kv.1) kv.2
  else if lower kv.1 = "proxy-authorization" then acc
  else dictSet acc kv.1 kv.2

/-- `transform_proxy_headers` from the source: returns a new dictionary,
renaming a `proxy-connection` key (case-insensitively) to `key.split('-')[1]`
and dropping `proxy-authorization` keys; everything else is copied over. -/
def transform_proxy_headers (hl : HeaderDict) : HeaderDict :=
  hl.foldl transformStep []

/-- `parse_headers` from the source, with the resulting HTTP message modelled
as the ordered list of `(name, value)` header lines it would contain: the
transformed dictionary is flattened, one line per value. -/
def parse_headers (hl : HeaderDict) : List (String × String) :=
  (transform_proxy_headers hl).foldl
    (fun acc kv => acc ++ kv.2.map (fun v => (kv.1, v))) []

/-- The merging loop of `serialize_headers`: `out.setdefault(key, [])` followed
by `out[key].extend(values)` over the `(key, values)` items of a live
response's message. -/
def mergeHeaderItems (items : HeaderDict) : HeaderDict :=
  items.foldl
    (fun out kv =>
      if out.any (fun e => e.1 == kv.1) then
        out.map (fun e => if e.1 == kv.1 then (e.1, e.2 ++ kv.2) else e)
      else out ++ [(kv.1, kv.2)]) []

/-- `serialize_headers` from the source, taking the `(key, values)` items of
the live response's message directly (the `compat.get_headers` accessor is not
under src/). -/
def serialize_headers (msgItems : HeaderDict) : HeaderDict :=
  transform_proxy_headers (mergeHeaderItems msgItems)

/-- Modelled from the spec: class `vcr.request.Request` (module `vcr.request`)
is not under src/. Per §3 a Request has a method, an absolute URI, a body that
is "raw bytes or empty" (so an absent body is stored as the empty byte
string), and a headers mapping from name to ordered list of values. -/
structure Request where
  method : String
  uri : String
  body : String
  headers : HeaderDict
deriving DecidableEq

/-- Modelled from the spec: the header mapping of a Request lives in the
missing `vcr.request` module. Per §3 names are case-insensitive for lookup
and case-preserving for storage, and per §4.2 merging an entry for a name
that is already present extends the existing value list rather than
replacing it. This is the loop body of `update`, one incoming entry. -/
def headersUpdateStep (acc : HeaderDict) (kv : String × List String) : HeaderDict :=
  if acc.any (fun e => lower e.1 == lower kv.1) then
    acc.map (fun e => if lower e.1 == lower kv.1 then (e.1, e.2 ++ kv.2) else e)
  else acc ++ [kv]

/-- Modelled from the spec: `headers.update(new)` merges every entry of `new`
into the mapping with the extend-standing-values semantics of §4.2. -/
def headersUpdate (d new : HeaderDict) : HeaderDict :=
  new.foldl headersUpdateStep d

/-- Case-insensitive lookup in a header mapping (spec §3). -/
def lookupCI (d : HeaderDict) (k : String) : Option (List String) :=
  (d.find? (fun e => lower e.1 == lower k)).map Prod.snd

/-- One recorded exchange's status, as stored in a cassette record. -/
structure RecStatus where
  code : Nat
  message : String
deriving DecidableEq

/-- A Recorded Response: the dictionary built in `getresponse` and stored in
the cassette (`status`, `headers`, `body.string`). -/
structure RecordedResponse where
  status : RecStatus
  headers : HeaderDict
  body : String
deriving DecidableEq

/-- Modelled from the spec: the cassette collaborator (§6) is external to
src/; the proxy only consumes this contract. `_path` and `record_mode` are
used only for fault messages. -/
structure Cassette where
  can_play_response_for : Request → Bool
  play_response : Request → RecordedResponse
  write_protected : Bool
  filter_request : Request → Bool
  _path : String
  record_mode : String

/-- Modelled from the spec:
`vcr.errors.CannotOverwriteExistingCassetteException` is not under src/; per
§7 the cannot-record fault "carries the request, cassette identity, and
record mode for diagnostics" (the raise site in src formats exactly these
three values into its message). -/
structure CannotOverwriteExistingCassetteException where
  request : Request
  cassettePath : String
  recordMode : String
deriving DecidableEq

/-- The synthesized response object (`VCRHTTPResponse`). `content`/`pos`
model the `BytesIO` over the recorded body, `msg` models the parsed
`HTTPMessage` as its ordered header lines, and `recorded` is the (aliased)
recorded-response record the object holds on to. -/
structure VCRHTTPResponse where
  recorded : RecordedResponse
  reason : String
  status : Nat
  content : String
  pos : Nat
  closedFlag : Bool
  msg : List (String × String)
  lengthHeader : Option String
deriving DecidableEq

/-- The header cleanup in `VCRHTTPResponse.__init__`: `te_key` collects every
key whose upper-casing is `TRANSFER-ENCODING`, and only `te_key[0]` — the
first such key — is deleted from the dict. -/
def delFirstTE : HeaderDict → HeaderDict
  | [] => []
  | kv :: rest =>
    if upper kv.1 = "TRANSFER-ENCODING" then rest else kv :: delFirstTE rest

/-- First header line of the message matching a name case-insensitively
(`compat.get_header`, used for `content-length`). -/
def msgGetHeader (msg : List (String × String)) (name : String) : Option String :=
  (msg.find? (fun kv => lower kv.1 == lower name)).map Prod.snd

/-- Python's `x or None` on an optional string: empty or missing becomes
`None`. -/
def orNone : Option String → Option String
  | some s => if s = "" then none else some s
  | none => none

namespace VCRHTTPResponse

/-- `VCRHTTPResponse.__init__`. Because `del headers[te_key[0]]` mutates the
recorded response's own header dict in place, the constructor returns, next
to the new object, the record as it stands after construction. -/
def init (r : RecordedResponse) : VCRHTTPResponse × RecordedResponse :=
  let hs := delFirstTE r.headers
  let r' : RecordedResponse := { r with headers := hs }
  let m := parse_headers hs
  ({ recorded := r'
     reason := r.status.message
     status := r.status.code
     content := r.body
     pos := 0
     closedFlag := false
     msg := m
     lengthHeader := orNone (msgGetHeader m "content-length") }, r')

/-- `read`: the `BytesIO` read over the stored body; `none` reads to the
end, `some n` reads at most `n` bytes from the current position. -/
def read (r : VCRHTTPResponse) (n : Option Nat) : String × VCRHTTPResponse :=
  let rest := r.content.data.drop r.pos
  let taken := match n with
    | none => rest
    | some k => rest.take k
  (⟨taken⟩, { r with pos := r.pos + taken.length })

/-- `readline`: reads up to and including the next newline. -/
def readline (r : VCRHTTPResponse) : String × VCRHTTPResponse :=
  let rest := r.content.data.drop r.pos
  let taken := (rest.takeWhile (fun c => c ≠ '\n')) ++ (rest.dropWhile (fun c => c ≠ '\n')).take 1
  (⟨taken⟩, { r with pos := r.pos + taken.length })

/-- `close`: sets the closed flag and returns `True`. -/
def close (r : VCRHTTPResponse) : Bool × VCRHTTPResponse :=
  (true, { r with closedFlag := true })

/-- `info()`: re-parses the recorded record's headers. -/
def info (r : VCRHTTPResponse) : List (String × String) × VCRHTTPResponse :=
  (parse_headers r.recorded.headers, r)

/-- `getheaders()`: the `(name, value)` items of a message re-parsed from the
recorded record's headers. -/
def getheaders (r : VCRHTTPResponse) : List (String × String) × VCRHTTPResponse :=
  (parse_headers r.recorded.headers, r)

/-- `getheader(name, default)`: joins all case-insensitive matches with
`", "`, falling back to the default. -/
def getheader (r : VCRHTTPResponse) (name : String) (dflt : Option String) :
    Option String × VCRHTTPResponse :=
  let values := ((parse_headers r.recorded.headers).filter
      (fun kv => lower kv.1 == lower name)).map Prod.snd
  (if values.isEmpty then dflt else some (String.intercalate ", " values), r)

end VCRHTTPResponse

/-- The parts of the owned real connection that the source reads when
resolving URIs (its `host` and `port` constructor state). -/
structure RealConnInfo where
  host : String
  port : Nat
deriving DecidableEq

/-- The `VCRConnection` state: protocol tag (`_protocol` class attribute),
the owned real connection's host/port, the proxy-awareness flag, the tunnel
target set by `set_tunnel`, and the in-progress request. -/
structure VCRConnection where
  protocol : String
  real_connection : RealConnInfo
  proxied : Bool
  proxied_host : Option String
  proxied_port : Option Nat
  vcr_request : Option Request

/-- The `{'https': 443, 'http': 80}` default-port table (total model; the
source only ever instantiates the two protocols). -/
def default_port (protocol : String) : Nat :=
  if protocol = "https" then 443 else 80

namespace VCRConnection

/-- `_port_postfix`: empty for the default port, `':port'` otherwise. When
proxied, the port considered is the tunnel port; Python would render a
not-yet-set tunnel port (`None`) as `:None`, which the source never reaches
because `_uri` guards on the tunnel host first. -/
def portPostfixStr (c : VCRConnection) : String :=
  match (if c.proxied then c.proxied_port else some c.real_connection.port) with
  | some p => if p = default_port c.protocol then "" else ":" ++ toString p
  | none => ":None"

/-- `_uri`: the request's absolute URI. Proxied `http` without a tunnel uses
the (already absolute) url unchanged; proxied `https` without a tunnel is the
`AssertionError` branch; otherwise scheme + host + port suffix + url. -/
def _uri (c : VCRConnection) (url : String) : Except String String :=
  if c.proxied ∧ c.proxied_host = none then
    if c.protocol = "http" then .ok url
    else .error "we should be proxied, but the client never called set_tunnel"
  else
    .ok ((c.protocol ++ "://"
          ++ (if c.proxied then c.proxied_host.getD "" else c.real_connection.host)
          ++ c.portPostfixStr) ++ url)

/-- The prefix string `_url` strips: scheme + real connection host + port
suffix. -/
def urlBase (c : VCRConnection) : String :=
  c.protocol ++ "://" ++ c.real_connection.host ++ c.portPostfixStr

/-- Model of Python `s.replace(pat, '', 1)`: removes the leftmost occurrence
of `pat`, wherever in the string it lies. -/
def replaceFirst (pat : List Char) : List Char → List Char
  | [] => []
  | c :: cs =>
    if pat.isPrefixOf (c :: cs) then (c :: cs).drop pat.length
    else c :: replaceFirst pat cs

/-- `_url`: request selector url from the absolute URI, via
`uri.replace(self_prefix, '', 1)`. -/
def _url (c : VCRConnection) (uri : String) : String :=
  ⟨replaceFirst c.urlBase.data uri.data⟩

/-- `request(method, url, body, headers)`: persists the request metadata in
`_vcr_request` (body defaults to `None`, stored per the spec-modelled Request
as the empty byte string; `headers or {}` turns an absent mapping into the
empty one). -/
def request (c : VCRConnection) (method url : String) (body : Option String)
    (headers : Option HeaderDict) : Except String VCRConnection :=
  (c._uri url).map (fun u =>
    { c with vcr_request := some ({ method := method
                                    uri := u
                                    body := body.getD ""
                                    headers := transform_proxy_headers (headers.getD []) } : Request) })

/-- `putrequest(method, url)`: starts a request with empty body and
headers. -/
def putrequest (c : VCRConnection) (method url : String) :
    Except String VCRConnection :=
  (c._uri url).map (fun u =>
    { c with vcr_request := some ({ method := method, uri := u, body := "", headers := [] } : Request) })

/-- `putheader(header, *values)` on the in-progress request:
`headers.update(transform_proxy_headers({header: values}))`. -/
def putheaderReq (r : Request) (header : String) (values : List String) : Request :=
  { r with headers := headersUpdate r.headers (transform_proxy_headers [(header, values)]) }

/-- `set_tunnel(host, port)`: asserts proxy-awareness, then records the
tunnel host and port (a falsy port — `None` or `0` — defaults to the
protocol's default port). The forwarding of the call to the real connection
is external I/O and carries no proxy state. -/
def set_tunnel (c : VCRConnection) (host : String) (port : Option Nat) :
    Except String VCRConnection :=
  if c.proxied then
    .ok { c with
          proxied_host := some host
          proxied_port := some (match port with
            | none => default_port c.protocol
            | some p => if p = 0 then default_port c.protocol else p) }
  else .error "set_tunnel was called without the https_proxy env var being set"

end VCRConnection

/-- An operation invoked on the owned real connection. -/
inductive RealOp where
  | connectOp
  | requestOp (method url body : String) (headers : HeaderDict)
  | getresponseOp
deriving DecidableEq

/-- What the real connection's `getresponse()` returns when the exchange is
forwarded: status, reason, the `(key, values)` items of its message, and the
fully read body. -/
structure RealLiveResponse where
  status : Nat
  reason : String
  msgItems : HeaderDict
  body : String

/-- The behavior of the real server reached through the real connection:
maps the forwarded (method, url, body, headers) to a live response. -/
structure RealBehavior where
  respond : String → String → String → HeaderDict → RealLiveResponse

/-- `connect()`: returns the operations this call performs on the real
connection — none when a recorded response is known to exist for the current
request or when the cassette is write-protected, otherwise the real
`connect`. -/
def connectOps (cas : Cassette) (c : VCRConnection) : List RealOp :=
  if (match c.vcr_request with
      | some r => cas.can_play_response_for r
      | none => false) then []
  else if cas.write_protected then []
  else [RealOp.connectOp]

/-- The outcome of `getresponse()`: a synthesized response, or the
cannot-record fault. -/
inductive GetResponseOutcome where
  | response (resp : VCRHTTPResponse)
  | cannotRecord (e : CannotOverwriteExistingCassetteException)
deriving DecidableEq

/-- `getresponse()`: `none` when there is no in-progress request (Python
would raise `AttributeError`); otherwise the outcome, the operations
performed on the real connection, and the `(request, response)` exchanges
appended to the cassette. In the forwarded branch the appended record is the
one the returned `VCRHTTPResponse` holds — the constructor's in-place header
cleanup acts on the very dict handed to `cassette.append`. -/
def getresponse (cas : Cassette) (rb : RealBehavior) (c : VCRConnection) :
    Option (GetResponseOutcome × List RealOp × List (Request × RecordedResponse)) :=
  c.vcr_request.map (fun req =>
    if cas.can_play_response_for req then
      (.response (VCRHTTPResponse.init (cas.play_response req)).1, [], [])
    else if cas.write_protected && cas.filter_request req then
      (.cannotRecord { request := req, cassettePath := cas._path, recordMode := cas.record_mode },
       [], [])
    else
      let url := c._url req.uri
      let live := rb.respond req.method url req.body req.headers
      let stored : RecordedResponse :=
        { status := { code := live.status, message := live.reason }
          headers := serialize_headers live.msgItems
          body := live.body }
      let built := VCRHTTPResponse.init stored
      (.response built.1,
       [RealOp.requestOp req.method url req.body req.headers, RealOp.getresponseOp],
       [(req, built.2)]))

/-- A Python exception as it concerns `__setattr__`: either `AttributeError`
or anything else. -/
inductive PyExc where
  | attributeError
  | otherExc (msg : String)
deriving DecidableEq

/-- A generic attribute store (an object's `__dict__`), values modelled as
strings. -/
abbrev AttrDict := List (String × String)

/-- Python dict assignment for attribute stores. -/
def attrSet (d : AttrDict) (k v : String) : AttrDict :=
  if d.any (fun e => e.1 == k) then
    d.map (fun e => if e.1 == k then (e.1, v) else e)
  else d ++ [(k, v)]

/-- The real connection as a target of attribute propagation: its attribute
store. -/
structure RealConnObj where
  attrs : AttrDict
deriving DecidableEq

/-- The `VCRConnection` instance as a target of attribute writes: the owned
real connection (absent until `__init__` assigns it) and the proxy's own
attribute store. The `real_connection` slot itself is assigned exactly once,
by the constructor, and is held apart from the ordinary attribute store. -/
structure ProxyObj where
  realConn : Option RealConnObj
  attrs : AttrDict
deriving DecidableEq

/-- `VCRConnection.__setattr__`: first `setattr(self.real_connection, name,
value)` — reading `self.real_connection` before the constructor has assigned
it raises `AttributeError`, and only `AttributeError` is caught — then
`super().__setattr__(name, value)` on the proxy itself. The real
connection's own attribute setter is a parameter (`realSet`), since httplib
subclasses and wrappers may run arbitrary property setters. -/
def proxySetattr (realSet : RealConnObj → String → String → Except PyExc RealConnObj)
    (p : ProxyObj) (name value : String) : Except PyExc ProxyObj :=
  match p.realConn with
  | none => .ok { p with attrs := attrSet p.attrs name value }
  | some rc =>
    match realSet rc name value with
    | .ok rc' => .ok { realConn := some rc', attrs := attrSet p.attrs name value }
    | .error PyExc.attributeError => .ok { p with attrs := attrSet p.attrs name value }
    | .error e => .error e

/-- The predicate selecting the entries `transform_proxy_headers` keeps
(everything but `proxy-authorization`). -/
def keptEntry (kv : String × List String) : Bool :=
  !(lower kv.1 == "proxy-authorization")

/-- The per-entry renaming `transform_proxy_headers` applies: a
`proxy-connection` key (case-insensitively) becomes `key.split('-')[1]`,
anything else is untouched. -/
def renameEntry (kv : String × List String) : String × List String :=
  if lower kv.1 = "proxy-connection" then (suffix1 kv.1, kv.2) else kv

/-- The header name under which a `putheader(h, ...)` call lands in the
request's header mapping. -/
def effKey (h : String) : String :=
  if lower h = "proxy-connection" then suffix1 h else h

/-- The inverse URI mapping as the claim words it: the prefix is removed
exactly once and only from the left end, anything else is left unchanged
(written from the claim for comparison with `_url`). -/
def urlPerClaim (c : VCRConnection) (uri : String) : String :=
  if c.urlBase.data.isPrefixOf uri.data then ⟨uri.data.drop c.urlBase.data.length⟩
  else uri

/-- A plain https connection proxy over real host `api.test`, default
port. -/
def stHttps : VCRConnection :=
  { protocol := "https", real_connection := { host := "api.test", port := 443 }
    proxied := false, proxied_host := none, proxied_port := none, vcr_request := none }

/-- The proxy-aware variant of `stHttps`. -/
def stProxied : VCRConnection := { stHttps with proxied := true }

/-- A proxy-aware http connection proxy. -/
def stProxiedHttp : VCRConnection :=
  { stProxied with protocol := "http", real_connection := { host := "api.test", port := 80 } }

/-- A concrete in-progress request. -/
def req0 : Request :=
  { method := "GET", uri := "https://api.test/widgets", body := "", headers := [] }

/-- `stHttps` with `req0` in progress. -/
def stReq : VCRConnection := { stHttps with vcr_request := some req0 }

/-- A recorded response with a single `Transfer-Encoding` header. -/
def recTE1 : RecordedResponse :=
  { status := { code := 200, message := "OK" }
    headers := [("Transfer-Encoding", ["chunked"]), ("X-Extra", ["y"])]
    body := "payload" }

/-- A recorded response whose dict holds two case-variants of
`transfer-encoding` (legal for a Python dict: the keys differ as strings). -/
def recTE2 : RecordedResponse :=
  { status := { code := 200, message := "OK" }
    headers := [("Transfer-Encoding", ["chunked"]), ("TRANSFER-ENCODING", ["chunked"])]
    body := "hi" }

/-- A cassette that can play every request. -/
def casPlay : Cassette :=
  { can_play_response_for := fun _ => true
    play_response := fun _ => recTE1
    write_protected := false
    filter_request := fun _ => true
    _path := "fixtures/cassette.yaml"
    record_mode := "once" }

/-- A write-protected cassette that can play nothing and filters nothing
out. -/
def casWP : Cassette :=
  { can_play_response_for := fun _ => false
    play_response := fun _ => recTE1
    write_protected := true
    filter_request := fun _ => true
    _path := "fixtures/cassette.yaml"
    record_mode := "none" }

/-- A fixed live-server behavior. -/
def rb0 : RealBehavior :=
  { respond := fun _ _ _ _ =>
      { status := 200, reason := "OK", msgItems := [], body := "live" } }

/-- A real connection whose attribute setter always succeeds by plain
dictionary assignment (the `object.__setattr__` default). -/
def rsPlain (rc : RealConnObj) (n v : String) : Except PyExc RealConnObj :=
  .ok { attrs := attrSet rc.attrs n v }

/-- A proxy object whose real connection has been constructed. -/
def pObj : ProxyObj := { realConn := some { attrs := [] }, attrs := [] }

/-! Helper lemmas. -/

theorem append_congr_left {a b : String} (p : String) (h : a = b) : a ++ p = b ++ p := by
  rw [h]

theorem replaceFirst_append (pat rest : List Char) :
    VCRConnection.replaceFirst pat (pat ++ rest) = rest := by
  match pat with
  | [] =>
    match rest with
    | [] => rfl
    | c :: cs =>
      show VCRConnection.replaceFirst [] (c :: cs) = c :: cs
      rw [VCRConnection.replaceFirst]
      simp [List.isPrefixOf]
  | p :: ps =>
    show VCRConnection.replaceFirst (p :: ps) ((p :: ps) ++ rest) = rest
    rw [List.cons_append, VCRConnection.replaceFirst, if_pos, List.length_cons,
      List.drop_succ_cons, List.drop_left]
    rw [List.isPrefixOf_iff_prefix, ← List.cons_append]
    exact List.prefix_append _ rest

theorem string_mk_data (s : String) : String.mk s.data = s := rfl

theorem uri_with_tunnel (pr host : String) (rc : RealConnInfo) (vr : Option Request)
    (pt : Nat) (p : String) :
    VCRConnection._uri ⟨pr, rc, true, some host, some pt, vr⟩ p
      = .ok ((pr ++ "://" ++ host
              ++ (if pt = default_port pr then "" else ":" ++ toString pt)) ++ p) := by
  simp [VCRConnection._uri, VCRConnection.portPostfixStr]

/-! C9: starting a request incrementally versus in one shot. -/

/-- C9: for every method and path, `putrequest` leaves the connection proxy
(in particular its in-progress request) in exactly the same state as
`request` with the same method and path and no body and no headers. -/
theorem putrequest_equiv_request (c : VCRConnection) (method url : String) :
    c.putrequest method url = c.request method url none none := rfl

/-! C7: URI resolution after tunnel setup. -/

/-- C7: on a proxy-aware https connection, after `set_tunnel` to
`example.com` port 9443 the resolved URI of a path `p` is exactly
`https://example.com:9443` followed by `p`; with the protocol-default tunnel
port — 443 for https, 80 for http, whether given explicitly or defaulted
from an unspecified port — the `:port` suffix is omitted. -/
theorem tunnel_uri_resolution (cs cp : VCRConnection) (p : String)
    (hs : cs.protocol = "https") (hps : cs.proxied = true)
    (hh : cp.protocol = "http") (hpp : cp.proxied = true) :
    (cs.set_tunnel "example.com" (some 9443)).map (fun s => s._uri p)
        = .ok (.ok ("https://example.com:9443" ++ p))
    ∧ (cs.set_tunnel "example.com" (some 443)).map (fun s => s._uri p)
        = .ok (.ok ("https://example.com" ++ p))
    ∧ (cs.set_tunnel "example.com" none).map (fun s => s._uri p)
        = .ok (.ok ("https://example.com" ++ p))
    ∧ (cp.set_tunnel "example.com" (some 80)).map (fun s => s._uri p)
        = .ok (.ok ("http://example.com" ++ p))
    ∧ (cp.set_tunnel "example.com" none).map (fun s => s._uri p)
        = .ok (.ok ("http://example.com" ++ p)) := by
  obtain ⟨pr, rc, px, ph, pp, vr⟩ := cs
  obtain ⟨qr, qc, qx, qh, qp, qv⟩ := cp
  dsimp only at hs hps hh hpp
  subst hs; subst hps; subst hh; subst hpp
  refine ⟨?_, ?_, ?_, ?_, ?_⟩
  · rw [show VCRConnection.set_tunnel ⟨"https", rc, true, ph, pp, vr⟩ "example.com" (some 9443)
        = .ok ⟨"https", rc, true, some "example.com", some 9443, vr⟩ from rfl]
    simp only [Except.map]
    rw [uri_with_tunnel]
    exact congrArg (fun s => Except.ok (Except.ok (s ++ p))) (by decide)
  · rw [show VCRConnection.set_tunnel ⟨"https", rc, true, ph, pp, vr⟩ "example.com" (some 443)
        = .ok ⟨"https", rc, true, some "example.com", some 443, vr⟩ from rfl]
    simp only [Except.map]
    rw [uri_with_tunnel]
    exact congrArg (fun s => Except.ok (Except.ok (s ++ p))) (by decide)
  · rw [show VCRConnection.set_tunnel ⟨"https", rc, true, ph, pp, vr⟩ "example.com" none
        = .ok ⟨"https", rc, true, some "example.com", some 443, vr⟩ from rfl]
    simp only [Except.map]
    rw [uri_with_tunnel]
    exact congrArg (fun s => Except.ok (Except.ok (s ++ p))) (by decide)
  · rw [show VCRConnection.set_tunnel ⟨"http", qc, true, qh, qp, qv⟩ "example.com" (some 80)
        = .ok ⟨"http", qc, true, some "example.com", some 80, qv⟩ from rfl]
    simp only [Except.map]
    rw [uri_with_tunnel]
    exact congrArg (fun s => Except.ok (Except.ok (s ++ p))) (by decide)
  · rw [show VCRConnection.set_tunnel ⟨"http", qc, true, qh, qp, qv⟩ "example.com" none
        = .ok ⟨"http", qc, true, some "example.com", some 80, qv⟩ from rfl]
    simp only [Except.map]
    rw [uri_with_tunnel]
    exact congrArg (fun s => Except.ok (Except.ok (s ++ p))) (by decide)

/-- Witness for C7 at concrete connections and path `/p`. -/
theorem tunnel_uri_resolution_witness :
    (stProxied.set_tunnel "example.com" (some 9443)).map (fun s => s._uri "/p")
      = .ok (.ok "https://example.com:9443/p") :=
  (tunnel_uri_resolution stProxied stProxiedHttp "/p" rfl rfl rfl rfl).1

/-! C10: attribute propagation to the real connection. -/

/-- C10: once the real connection exists, an attribute assignment on the
proxy is also performed on the real connection (whatever name is being set,
bookkeeping fields included); only an `AttributeError` from the real
connection's setter is suppressed — the write then lands on the proxy alone
— and any other exception escapes, in which case the proxy's own attribute
is not updated either. -/
theorem setattr_propagation
    (realSet : RealConnObj → String → String → Except PyExc RealConnObj)
    (p : ProxyObj) (rc : RealConnObj) (n v : String)
    (h : p.realConn = some rc) :
    (∀ rc', realSet rc n v = .ok rc' →
      proxySetattr realSet p n v = .ok { realConn := some rc', attrs := attrSet p.attrs n v })
    ∧ (realSet rc n v = .error PyExc.attributeError →
      proxySetattr realSet p n v = .ok { p with attrs := attrSet p.attrs n v })
    ∧ (∀ m, realSet rc n v = .error (PyExc.otherExc m) →
      proxySetattr realSet p n v = .error (PyExc.otherExc m)) := by
  refine ⟨?_, ?_, ?_⟩
  · intro rc' hok
    simp [proxySetattr, h, hok]
  · intro herr
    simp [proxySetattr, h, herr]
  · intro m herr
    simp [proxySetattr, h, herr]

/-- Witness for C10: propagating the `_vcr_request` bookkeeping field through
a plain attribute setter updates both objects. -/
theorem setattr_propagation_witness :
    proxySetattr rsPlain pObj "_vcr_request" "req"
      = .ok { realConn := some { attrs := [("_vcr_request", "req")] }
              attrs := [("_vcr_request", "req")] } :=
  (setattr_propagation rsPlain pObj { attrs := [] } "_vcr_request" "req" rfl).1
    { attrs := [("_vcr_request", "req")] } rfl

/-! C1: replay path never touches the real connection. -/

/-- C1: when the cassette can play a response for the in-progress request,
`connect()` performs no operation on the real connection (likewise whenever
the cassette is write-protected), and `getresponse()` returns a response
synthesized from the cassette's recording while performing no operation on
the real connection and appending nothing. -/
theorem replay_touches_no_real_connection (cas : Cassette) (rb : RealBehavior)
    (c : VCRConnection) (req : Request) (hreq : c.vcr_request = some req) :
    (cas.can_play_response_for req = true →
      connectOps cas c = []
      ∧ getresponse cas rb c
          = some (.response (VCRHTTPResponse.init (cas.play_response req)).1, [], []))
    ∧ (cas.write_protected = true → connectOps cas c = []) := by
  constructor
  · intro hplay
    constructor
    · simp [connectOps, hreq, hplay]
    · simp [getresponse, hreq, hplay]
  · intro hwp
    unfold connectOps
    rw [hreq]
    by_cases hplay : cas.can_play_response_for req
    · simp [hplay]
    · simp [hplay, hwp]

/-- Witness for C1: a cassette that can play `req0`. -/
theorem replay_touches_no_real_connection_witness :
    casPlay.can_play_response_for req0 = true
    ∧ connectOps casPlay stReq = []
    ∧ getresponse casPlay rb0 stReq
        = some (.response (VCRHTTPResponse.init (casPlay.play_response req0)).1, [], []) :=
  ⟨rfl, (replay_touches_no_real_connection casPlay rb0 stReq req0 rfl).1 rfl⟩

/-! C2: the cannot-record fault. -/

/-- C2: `getresponse()` raises the cannot-record fault exactly when the
cassette cannot play the in-progress request, is write-protected, and its
request filter accepts the request; the fault carries the request, the
cassette path and the record mode, and no operation is performed on the real
connection (and nothing is appended) in that case. -/
theorem cannot_record_fault_iff (cas : Cassette) (rb : RealBehavior)
    (c : VCRConnection) (req : Request) (hreq : c.vcr_request = some req) :
    (getresponse cas rb c
        = some (.cannotRecord
            { request := req, cassettePath := cas._path, recordMode := cas.record_mode },
          [], [])
      ↔ cas.can_play_response_for req = false
        ∧ cas.write_protected = true ∧ cas.filter_request req = true)
    ∧ (∀ e ops app, getresponse cas rb c = some (.cannotRecord e, ops, app) →
        e = { request := req, cassettePath := cas._path, recordMode := cas.record_mode }
        ∧ ops = [] ∧ app = []) := by
  unfold getresponse
  rw [hreq]
  cases hplay : cas.can_play_response_for req with
  | true => simp [hplay]
  | false =>
    cases hwp : cas.write_protected with
    | false => simp [hplay, hwp]
    | true =>
      cases hfil : cas.filter_request req with
      | false => simp [hplay, hwp, hfil]
      | true =>
        simp only [hplay, hwp, hfil, Option.map, Bool.true_and, if_false, if_true,
          Bool.false_eq_true, Bool.and_self, ite_true, ite_false]
        constructor
        · simp
        · intro e ops app h
          simp only [Option.some.injEq, Prod.mk.injEq] at h
          obtain ⟨h1, h2, h3⟩ := h
          cases h1
          exact ⟨rfl, h2.symm, h3.symm⟩

/-- Witness for C2: a write-protected cassette that cannot play `req0` and
does not filter it out. -/
theorem cannot_record_fault_iff_witness :
    getresponse casWP rb0 stReq
      = some (.cannotRecord
          { request := req0, cassettePath := casWP._path, recordMode := casWP.record_mode },
        [], []) :=
  (cannot_record_fault_iff casWP rb0 stReq req0 rfl).1.mpr ⟨rfl, rfl, rfl⟩

/-! C5: `putheader` extends an existing header's value list. -/

theorem transform_singleton (h : String) (vs : List String)
    (hna : ¬ lower h = "proxy-authorization") :
    transform_proxy_headers [(h, vs)] = [(effKey h, vs)] := by
  unfold transform_proxy_headers effKey
  simp only [List.foldl_cons, List.foldl_nil]
  unfold transformStep
  by_cases hpc : lower h = "proxy-connection"
  · simp [hpc, dictSet]
  · simp [hpc, hna, dictSet]

theorem find?_map_keyfix (key : String) (values : List String) (d : HeaderDict) :
    (d.map (fun x => if lower x.1 == key then (x.1, x.2 ++ values) else x)).find?
        (fun x => lower x.1 == key)
      = (d.find? (fun x => lower x.1 == key)).map
          (fun x => if lower x.1 == key then (x.1, x.2 ++ values) else x) := by
  rw [List.find?_map]
  have hfun : ((fun x : String × List String => lower x.1 == key) ∘
      (fun x : String × List String => if lower x.1 == key then (x.1, x.2 ++ values) else x))
      = (fun x : String × List String => lower x.1 == key) := by
    funext x
    by_cases hx : (lower x.1 == key) = true
    · simp [Function.comp, hx]
    · simp [Function.comp, hx]
  rw [hfun]

/-- C5: calling `putheader` with a header name whose transformed key is
already present in the in-progress request's header mapping extends that
key's value list with the new values rather than replacing it. -/
theorem putheader_extends_values (r : Request) (header : String) (values l : List String)
    (hna : ¬ lower header = "proxy-authorization")
    (hpresent : lookupCI r.headers (effKey header) = some l) :
    lookupCI (VCRConnection.putheaderReq r header values).headers (effKey header)
      = some (l ++ values) := by
  unfold VCRConnection.putheaderReq
  rw [transform_singleton header values hna]
  show lookupCI (headersUpdateStep r.headers (effKey header, values)) (effKey header)
      = some (l ++ values)
  unfold lookupCI at hpresent
  obtain ⟨e, hfind, hsnd⟩ := Option.map_eq_some'.mp hpresent
  have hmem := List.mem_of_find?_eq_some hfind
  have hpe := List.find?_some hfind
  have hany : (r.headers.any (fun x => lower x.1 == lower (effKey header))) = true :=
    List.any_eq_true.mpr ⟨e, hmem, hpe⟩
  dsimp only [headersUpdateStep]
  rw [if_pos hany]
  unfold lookupCI
  rw [find?_map_keyfix, hfind]
  simp only [Option.map_some', hpe, if_true, if_pos]
  rw [hsnd]

/-- Witness for C5: a second `putheader` for `X-Token` appends to the stored
value list. -/
theorem putheader_extends_values_witness :
    lookupCI
      (VCRConnection.putheaderReq
        { method := "GET", uri := "https://api.test/w", body := ""
          headers := [("X-Token", ["a"])] }
        "X-Token" ["b"]).headers
      (effKey "X-Token") = some (["a"] ++ ["b"]) :=
  putheader_extends_values
    { method := "GET", uri := "https://api.test/w", body := ""
      headers := [("X-Token", ["a"])] }
    "X-Token" ["b"] ["a"] (by decide) (by decide)

/-! C8: inverse mapping from absolute URI to selector path. -/

/-- C8 (amended): `_url` removes the leftmost occurrence of the
scheme+host+port prefix computed from the connection, wherever it lies; when
the URI starts with that prefix — the shape `_uri` produces — exactly the
left-end prefix copy is removed and the remainder is byte-identical, and the
`api.test` example maps to `/foo?x=1`. -/
theorem url_strips_leftmost (c : VCRConnection) (rest : String) :
    c._url (c.urlBase ++ rest) = rest
    ∧ stHttps._url "https://api.test/foo?x=1" = "/foo?x=1" := by
  constructor
  · unfold VCRConnection._url
    rw [show (c.urlBase ++ rest).data = c.urlBase.data ++ rest.data from rfl,
      replaceFirst_append]
  · decide

/-- Counterexample for C8: with real host `api.test` (default port), an URI
that contains the prefix only in the middle still gets it removed — the
implementation's `replace(prefix, '', 1)` is not anchored to the left end,
contradicting the claim's "only from the left end". -/
theorem url_left_end_cex :
    stHttps._url "/a?next=https://api.test/b" = "/a?next=/b"
    ∧ urlPerClaim stHttps "/a?next=https://api.test/b" = "/a?next=https://api.test/b"
    ∧ stHttps._url "/a?next=https://api.test/b"
        ≠ urlPerClaim stHttps "/a?next=https://api.test/b" := by decide

/-! Counterexamples on the header transform and the response synthesizer. -/

/-- Counterexample for C4: the implementation renames `Proxy-Connection` to
`Connection` (the hyphen-suffix of the original key, original case kept),
not to the literal lowercase name `connection` the claim states. -/
theorem header_transform_case_cex :
    transform_proxy_headers [("Proxy-Connection", ["x"])] = [("Connection", ["x"])]
    ∧ transform_proxy_headers [("Proxy-Connection", ["x"])] ≠ [("connection", ["x"])] := by
  decide

/-- Counterexample for C3: when the recorded headers hold two case-variants
of `transfer-encoding` (distinct dict keys), only the first is deleted, so
the synthesized headers do contain a transfer-encoding header. -/
theorem synthesized_te_header_cex :
    ¬ (∀ kv ∈ (VCRHTTPResponse.init recTE2).1.msg, ¬ upper kv.1 = "TRANSFER-ENCODING") := by
  decide

/-- Counterexample for C6: constructing the synthesized response deletes the
`Transfer-Encoding` key from the recorded response's own header dict — the
record is mutated by replay. -/
theorem init_mutates_record_cex :
    (VCRHTTPResponse.init recTE1).2 ≠ recTE1 := by decide

/-! C4: shape of the header transform. -/

theorem dictSet_not_mem (d : HeaderDict) (k : String) (v : List String)
    (h : ∀ e ∈ d, ¬ e.1 = k) : dictSet d k v = d ++ [(k, v)] := by
  unfold dictSet
  rw [if_neg]
  intro hc
  obtain ⟨e, hmem, he⟩ := List.any_eq_true.mp hc
  exact h e hmem (by simpa using he)

theorem transform_go (hl : HeaderDict) : ∀ acc : HeaderDict,
    (acc.map Prod.fst ++ ((hl.filter keptEntry).map renameEntry).map Prod.fst).Nodup →
    hl.foldl transformStep acc = acc ++ (hl.filter keptEntry).map renameEntry := by
  induction hl with
  | nil => intro acc _; simp
  | cons kv tl ih =>
    intro acc hnd
    rw [List.foldl_cons]
    by_cases hpa : lower kv.1 = "proxy-authorization"
    · have hkept : keptEntry kv = false := by simp [keptEntry, hpa]
      have hstep : transformStep acc kv = acc := by
        unfold transformStep
        rw [hpa]
        simp
      rw [hstep, List.filter_cons_of_neg (by simp [hkept])]
      rw [List.filter_cons_of_neg (by simp [hkept])] at hnd
      exact ih acc hnd
    · have hkept : keptEntry kv = true := by simp [keptEntry, hpa]
      have hkey : (renameEntry kv).2 = kv.2 := by
        unfold renameEntry
        by_cases hpc : lower kv.1 = "proxy-connection" <;> simp [hpc]
      have hstep : transformStep acc kv = dictSet acc (renameEntry kv).1 kv.2 := by
        unfold transformStep renameEntry
        by_cases hpc : lower kv.1 = "proxy-connection" <;> simp [hpc, hpa]
      rw [List.filter_cons_of_pos hkept, List.map_cons, List.map_cons] at hnd
      rw [hstep]
      have hnotin : ∀ e ∈ acc, ¬ e.1 = (renameEntry kv).1 := by
        intro e hmem heq
        rw [List.nodup_append] at hnd
        exact hnd.2.2 (List.mem_map_of_mem Prod.fst hmem)
          (heq ▸ List.mem_cons_self _ _)
      rw [dictSet_not_mem acc _ _ hnotin]
      have hnd' : ((acc ++ [((renameEntry kv).1, kv.2)]).map Prod.fst
          ++ ((tl.filter keptEntry).map renameEntry).map Prod.fst).Nodup := by
        rw [List.map_append, List.append_assoc]
        simpa using hnd
      rw [ih (acc ++ [((renameEntry kv).1, kv.2)]) hnd']
      rw [List.append_assoc]
      rw [List.filter_cons_of_pos hkept, List.map_cons, List.singleton_append]
      have : ((renameEntry kv).1, kv.2) = renameEntry kv := by
        rw [← hkey]
      rw [this]

/-- C4 (amended): provided the output names are pairwise distinct — which
can fail only when distinct input keys collide after renaming — the Header
Transform returns exactly the input with every `proxy-authorization` entry
dropped and every `proxy-connection` entry renamed to the hyphen-suffix of
its original name, `connection` up to case; all other entries pass through
unchanged, order, name case and value lists preserved. (The function is
pure: it builds a fresh mapping and its input is untouched.) -/
theorem header_transform_shape (hl : HeaderDict)
    (hnd : (((hl.filter keptEntry).map renameEntry).map Prod.fst).Nodup) :
    transform_proxy_headers hl = (hl.filter keptEntry).map renameEntry := by
  have h := transform_go hl [] (by simpa using hnd)
  simpa using h

/-- Witness for C4 on a concrete mapping with a rename, a drop and a
pass-through. -/
theorem header_transform_shape_witness :
    (((([("Proxy-Connection", ["a"]), ("Proxy-Authorization", ["b"]),
        ("Accept", ["c", "d"])] : HeaderDict).filter keptEntry).map renameEntry).map
          Prod.fst).Nodup
    ∧ transform_proxy_headers
        [("Proxy-Connection", ["a"]), ("Proxy-Authorization", ["b"]), ("Accept", ["c", "d"])]
      = (([("Proxy-Connection", ["a"]), ("Proxy-Authorization", ["b"]),
          ("Accept", ["c", "d"])] : HeaderDict).filter keptEntry).map renameEntry :=
  ⟨by decide, header_transform_shape _ (by decide)⟩

/-! C3: body round-trip and transfer-encoding removal. -/

theorem lowerChar_eq_dash (c : Char) : lowerChar c = '-' ↔ c = '-' := by
  unfold lowerChar
  cases hf : lowerTable.find? (fun p => p.1 == c) with
  | none => rfl
  | some p =>
    have hmem := List.mem_of_find?_eq_some hf
    have hc : p.1 = c := by simpa using List.find?_some hf
    constructor
    · intro h
      have hno : ∀ q ∈ lowerTable, ¬ q.2 = '-' := by decide
      exact absurd h (hno p hmem)
    · intro h
      have hno : ∀ q ∈ lowerTable, ¬ q.1 = '-' := by decide
      exact absurd (hc.trans h) (hno p hmem)

theorem splitOnChar_ne_nil (sep : Char) (l : List Char) : splitOnChar sep l ≠ [] := by
  cases l with
  | nil => simp [splitOnChar]
  | cons c cs =>
    unfold splitOnChar
    by_cases h : c = sep
    · simp [h]
    · simp only [h, if_false]
      cases hsp : splitOnChar sep cs <;> simp

theorem splitOnChar_map_lowerChar (l : List Char) :
    splitOnChar '-' (l.map lowerChar) = (splitOnChar '-' l).map (List.map lowerChar) := by
  induction l with
  | nil => rfl
  | cons c cs ih =>
    rw [List.map_cons]
    unfold splitOnChar
    by_cases h : c = '-'
    · have h2 : lowerChar c = '-' := (lowerChar_eq_dash c).mpr h
      subst h
      simp [h2, ih]
    · have h2 : ¬ lowerChar c = '-' := fun hh => h ((lowerChar_eq_dash c).mp hh)
      obtain ⟨hd, tlr, hsp⟩ : ∃ hd tlr, splitOnChar '-' cs = hd :: tlr := by
        cases hs : splitOnChar '-' cs with
        | nil => exact absurd hs (splitOnChar_ne_nil _ _)
        | cons a b => exact ⟨a, b, rfl⟩
      rw [if_neg h2, if_neg h, ih, hsp]
      simp

theorem lower_suffix1 (k : String) : lower (suffix1 k) = suffix1 (lower k) := by
  show String.mk ((((splitOnChar '-' k.data)[1]?).getD []).map lowerChar)
      = String.mk (((splitOnChar '-' (k.data.map lowerChar))[1]?).getD [])
  rw [splitOnChar_map_lowerChar, List.getElem?_map]
  cases (splitOnChar '-' k.data)[1]? <;> simp

theorem suffix1_of_pc (k : String) (h : lower k = "proxy-connection") :
    lower (suffix1 k) = "connection" := by
  rw [lower_suffix1, h]
  decide

theorem upper_data_length (s : String) : (upper s).data.length = s.data.length := by
  simp [upper]

theorem lower_data_length (s : String) : (lower s).data.length = s.data.length := by
  simp [lower]

theorem suffix1_pc_not_te (k : String) (h : lower k = "proxy-connection") :
    ¬ upper (suffix1 k) = "TRANSFER-ENCODING" := by
  intro hte
  have h1 : (upper (suffix1 k)).data.length = 17 := by rw [hte]; decide
  have h2 : (lower (suffix1 k)).data.length = 10 := by rw [suffix1_of_pc k h]; decide
  have h3 := upper_data_length (suffix1 k)
  have h4 := lower_data_length (suffix1 k)
  omega

theorem dictSet_key_mem (d : HeaderDict) (k : String) (v : List String) :
    ∀ kv ∈ dictSet d k v, kv.1 = k ∨ ∃ e ∈ d, kv.1 = e.1 := by
  intro kv hkv
  unfold dictSet at hkv
  by_cases hc : (d.any fun e => e.1 == k) = true
  · rw [if_pos hc] at hkv
    obtain ⟨e, hmem, hfe⟩ := List.mem_map.mp hkv
    right
    refine ⟨e, hmem, ?_⟩
    rw [← hfe]
    by_cases hek : (e.1 == k) = true <;> simp [hek]
  · rw [if_neg hc] at hkv
    rcases List.mem_append.mp hkv with h | h
    · right; exact ⟨kv, h, rfl⟩
    · left
      have : kv = (k, v) := by simpa using h
      rw [this]

theorem transform_keys_pred (P : String → Prop)
    (hren : ∀ k, lower k = "proxy-connection" → P (suffix1 k))
    (hl : HeaderDict) : ∀ acc : HeaderDict,
    (∀ kv ∈ acc, P kv.1) → (∀ kv ∈ hl, P kv.1) →
    ∀ kv ∈ hl.foldl transformStep acc, P kv.1 := by
  induction hl with
  | nil =>
    intro acc hacc _ kv hkv
    exact hacc kv (by simpa using hkv)
  | cons x tl ih =>
    intro acc hacc hhl kv hkv
    rw [List.foldl_cons] at hkv
    refine ih (transformStep acc x) ?_ (fun e he => hhl e (List.mem_cons_of_mem _ he)) kv hkv
    intro e he
    unfold transformStep at he
    by_cases hpc : lower x.1 = "proxy-connection"
    · rw [if_pos hpc] at he
      rcases dictSet_key_mem _ _ _ e he with h | ⟨a, ha, hea⟩
      · rw [h]; exact hren x.1 hpc
      · rw [hea]; exact hacc a ha
    · rw [if_neg hpc] at he
      by_cases hpa : lower x.1 = "proxy-authorization"
      · rw [if_pos hpa] at he
        exact hacc e he
      · rw [if_neg hpa] at he
        rcases dictSet_key_mem _ _ _ e he with h | ⟨a, ha, hea⟩
        · rw [h]; exact hhl x (List.mem_cons_self _ _)
        · rw [hea]; exact hacc a ha

theorem delFirstTE_no_te (hl : HeaderDict)
    (h : hl.countP (fun kv => upper kv.1 == "TRANSFER-ENCODING") ≤ 1) :
    ∀ kv ∈ delFirstTE hl, ¬ upper kv.1 = "TRANSFER-ENCODING" := by
  induction hl with
  | nil =>
    intro kv hkv
    simp [delFirstTE] at hkv
  | cons x tl ih =>
    intro kv hkv
    unfold delFirstTE at hkv
    by_cases hx : upper x.1 = "TRANSFER-ENCODING"
    · rw [if_pos hx] at hkv
      have hpx : (upper x.1 == "TRANSFER-ENCODING") = true := by simp [hx]
      rw [List.countP_cons, hpx] at h
      have h1 : tl.countP (fun kv => upper kv.1 == "TRANSFER-ENCODING") + 1 ≤ 1 := by
        simpa using h
      have hc : tl.countP (fun kv => upper kv.1 == "TRANSFER-ENCODING") = 0 := by omega
      intro hkvte
      exact (List.countP_eq_zero.mp hc) kv hkv (by simp [hkvte])
    · rw [if_neg hx] at hkv
      rcases List.mem_cons.mp hkv with h1 | h1
      · rw [h1]; exact hx
      · refine ih ?_ kv h1
        have hpx : (upper x.1 == "TRANSFER-ENCODING") = false := by
          simpa using hx
        rw [List.countP_cons, hpx] at h
        simpa using h

theorem foldl_lines_mem (L : List (String × List String)) :
    ∀ (acc : List (String × String)) (kv : String × String),
    kv ∈ L.foldl (fun a e => a ++ e.2.map (fun v => (e.1, v))) acc →
    kv ∈ acc ∨ ∃ e ∈ L, kv.1 = e.1 := by
  induction L with
  | nil =>
    intro acc kv h
    left
    simpa using h
  | cons x tl ih =>
    intro acc kv h
    rw [List.foldl_cons] at h
    rcases ih _ kv h with h1 | ⟨e, he, hke⟩
    · rcases List.mem_append.mp h1 with h2 | h2
      · left; exact h2
      · right
        obtain ⟨v, _, hkv⟩ := List.mem_map.mp h2
        exact ⟨x, List.mem_cons_self _ _, by rw [← hkv]⟩
    · right; exact ⟨e, List.mem_cons_of_mem _ he, hke⟩

theorem parse_headers_key_mem (hl : HeaderDict) :
    ∀ kv ∈ parse_headers hl, ∃ e ∈ transform_proxy_headers hl, kv.1 = e.1 := by
  intro kv h
  rcases foldl_lines_mem (transform_proxy_headers hl) [] kv h with h1 | h2
  · simp at h1
  · exact h2

/-- C3 (amended): synthesizing a response from a Recorded Response and
reading its body to completion yields exactly the recorded bytes; and as
long as at most one recorded header name is a case-variant of
`transfer-encoding` (the code deletes only the first such dict key), the
synthesized headers contain no transfer-encoding header. -/
theorem synthesized_response_roundtrip (r : RecordedResponse) :
    ((VCRHTTPResponse.init r).1.read none).1 = r.body
    ∧ (r.headers.countP (fun kv => upper kv.1 == "TRANSFER-ENCODING") ≤ 1 →
       ∀ kv ∈ (VCRHTTPResponse.init r).1.msg, ¬ upper kv.1 = "TRANSFER-ENCODING") := by
  constructor
  · rfl
  · intro hc kv hkv
    have hmem : kv ∈ parse_headers (delFirstTE r.headers) := hkv
    obtain ⟨e, he, hke⟩ := parse_headers_key_mem _ kv hmem
    rw [hke]
    exact transform_keys_pred (fun k => ¬ upper k = "TRANSFER-ENCODING")
      suffix1_pc_not_te (delFirstTE r.headers) [] (by simp)
      (delFirstTE_no_te r.headers hc) e he

/-- Witness for C3 on a recording with one `Transfer-Encoding` header. -/
theorem synthesized_response_roundtrip_witness :
    recTE1.headers.countP (fun kv => upper kv.1 == "TRANSFER-ENCODING") ≤ 1
    ∧ ∀ kv ∈ (VCRHTTPResponse.init recTE1).1.msg, ¬ upper kv.1 = "TRANSFER-ENCODING" :=
  ⟨by decide, (synthesized_response_roundtrip recTE1).2 (by decide)⟩

/-! C6: which replay operations change the recorded record. -/

theorem delFirstTE_eq_self (hl : HeaderDict)
    (h : ∀ kv ∈ hl, ¬ upper kv.1 = "TRANSFER-ENCODING") : delFirstTE hl = hl := by
  induction hl with
  | nil => rfl
  | cons x tl ih =>
    unfold delFirstTE
    rw [if_neg (h x (List.mem_cons_self _ _))]
    rw [ih (fun kv hkv => h kv (List.mem_cons_of_mem _ hkv))]

/-- C6 (amended): constructing the synthesized response changes the Recorded
Response record in exactly one way — the first header key uppercasing to
`TRANSFER-ENCODING` is deleted in place (a record without such a header is
left untouched); reading the body, closing, and all header introspection
leave the record unchanged. -/
theorem replay_mutation_bound (rr : RecordedResponse) (r : VCRHTTPResponse)
    (n : Option Nat) (name : String) (dflt : Option String) :
    (VCRHTTPResponse.init rr).2 = { rr with headers := delFirstTE rr.headers }
    ∧ ((∀ kv ∈ rr.headers, ¬ upper kv.1 = "TRANSFER-ENCODING") →
        (VCRHTTPResponse.init rr).2 = rr)
    ∧ ((r.read n).2).recorded = r.recorded
    ∧ (r.readline.2).recorded = r.recorded
    ∧ (r.close.2).recorded = r.recorded
    ∧ r.getheaders.2 = r
    ∧ (r.getheader name dflt).2 = r
    ∧ r.info.2 = r := by
  refine ⟨rfl, ?_, rfl, rfl, rfl, rfl, rfl, rfl⟩
  intro h
  show ({ rr with headers := delFirstTE rr.headers } : RecordedResponse) = rr
  rw [delFirstTE_eq_self rr.headers h]

/-- Witness for C6 on a recording without a transfer-encoding header. -/
theorem replay_mutation_bound_witness :
    (∀ kv ∈ ([("X-One", ["1"])] : HeaderDict), ¬ upper kv.1 = "TRANSFER-ENCODING")
    ∧ (VCRHTTPResponse.init
        { status := { code := 200, message := "OK" }
          headers := [("X-One", ["1"])], body := "b" }).2
      = { status := { code := 200, message := "OK" }
          headers := [("X-One", ["1"])], body := "b" } :=
  ⟨by decide,
    (replay_mutation_bound
      { status := { code := 200, message := "OK" }
        headers := [("X-One", ["1"])], body := "b" }
      (VCRHTTPResponse.init recTE1).1 none "x" none).2.1 (by decide)⟩

end VCRStubs
